import Mathlib

/-!
Verification development for the WGL 2024 drone (network relay node).

The definitions below are a shallow embedding of `src/drone.rs`
(`RustDrone`): packets, source-routing headers, the drone state record,
and the packet-handling functions `handle_packet`, `route_packet`,
`return_nack`, `deliver_packet`, `return_flood_response`,
`handle_flood_request`, `handle_command`, and the event loop `run`.

Modelling conventions:
* Machine integers (`u8` node ids, `u64` session and flood ids) become
  `Nat`; no arithmetic on them ever wraps in the source (they are only
  compared, copied and used as indices).
* The `f32` packet-drop rate and the uniform random sample drawn by
  `rand::thread_rng().gen_range(0.0..1.0)` are modelled as rationals;
  the only operation on them is the comparison `sample >= pdr`.
* Channel effects are modelled by an environment oracle `Env`:
  `Env.trySend n` is the outcome of `try_send` on the channel to
  neighbour `n`, `Env.ctrlOk` tells whether `controller_send.send`
  succeeds, and `Env.sample` is the random draw used for the (at most
  one) probabilistic drop decision of a dispatch.
* Observable effects are accumulated in a `List Output`: `Output.sent d p`
  records packet `p` successfully placed on the channel to `d`,
  `Output.event e` a successfully emitted controller event, and
  `Output.log` one emitted log line at level `debug` or above (`trace!`
  lines are not modelled).
* The `HashMap<NodeId, Sender<Packet>>` peer table is modelled by its
  key list (insertion order); the `HashSet<u64>` of seen flood ids by a
  list with set-like insertion.  The `log_target` string field is pure
  logging and is omitted.
* Fallible code is modelled with `Option`: a `none` result corresponds
  to a Rust panic (the out-of-bounds `split_at` in `return_nack`, the
  `unreachable!` in `handle_flood_request`) or to exhaustion of the
  recursion fuel of the mutually recursive routing functions.  All
  theorems below either hold for every fuel or exhibit explicitly
  sufficient fuel.
-/

namespace WGL

abbrev NodeId := Nat

inductive NodeType
  | Client
  | Drone
  | Server
deriving DecidableEq, Repr

structure SourceRoutingHeader where
  hops : List NodeId
  hop_index : Nat
deriving DecidableEq, Repr

structure Fragment where
  fragment_index : Nat
  total_n_fragments : Nat
  length : Nat
  data : List Nat
deriving DecidableEq, Repr

structure Ack where
  fragment_index : Nat
deriving DecidableEq, Repr

inductive NackType
  | ErrorInRouting (id : NodeId)
  | DestinationIsDrone
  | Dropped
  | UnexpectedRecipient (id : NodeId)
deriving DecidableEq, Repr

structure Nack where
  fragment_index : Nat
  nack_type : NackType
deriving DecidableEq, Repr

structure FloodRequest where
  flood_id : Nat
  initiator_id : NodeId
  path_trace : List (NodeId × NodeType)
deriving DecidableEq, Repr

structure FloodResponse where
  flood_id : Nat
  path_trace : List (NodeId × NodeType)
deriving DecidableEq, Repr

inductive PacketType
  | MsgFragment (f : Fragment)
  | Ack (a : Ack)
  | Nack (n : Nack)
  | FloodRequest (r : FloodRequest)
  | FloodResponse (r : FloodResponse)
deriving DecidableEq, Repr

structure Packet where
  pack_type : PacketType
  routing_header : SourceRoutingHeader
  session_id : Nat
deriving DecidableEq, Repr

inductive DroneEvent
  | PacketSent (p : Packet)
  | PacketDropped (p : Packet)
deriving DecidableEq, Repr

inductive DroneCommand
  | AddSender (id : NodeId)
  | RemoveSender (id : NodeId)
  | SetPacketDropRate (pdr : ℚ)
  | Crash
deriving DecidableEq, Repr

inductive DroneState
  | Created
  | Running
  | Crashing
deriving DecidableEq, Repr

/-- The mutable state of `RustDrone` (drone.rs, lines 13-23).  The peer
table keeps only the neighbour ids (channel handles live in `Env`), and
the pure-logging `log_target` field is omitted. -/
structure RustDrone where
  id : NodeId
  pdr : ℚ
  packet_send : List NodeId
  seen_flood_requests : List Nat
  state : DroneState
deriving DecidableEq, Repr

inductive CommandResult
  | Ok
  | Quit
deriving DecidableEq, Repr

/-- Outcome of a `crossbeam` `try_send` on a packet channel. -/
inductive SendOutcome
  | ok
  | disconnected
  | full
deriving DecidableEq, Repr

/-- Environment oracle: channel outcomes and the random draw. -/
structure Env where
  trySend : NodeId → SendOutcome
  ctrlOk : Bool
  sample : ℚ

/-- Observable effects of a dispatch. -/
inductive Output
  | sent (dest : NodeId) (p : Packet)
  | event (e : DroneEvent)
  | log
deriving DecidableEq, Repr

/-- `controller_send.send(e)`: on success the event is emitted, on
failure the drone only logs (drone.rs, lines 226-236). -/
def emitEvent (env : Env) (e : DroneEvent) : List Output :=
  if env.ctrlOk then [Output.event e] else [Output.log]

/-- `HashMap::insert` on the peer table, viewed on its key list:
overwriting an existing key leaves the key list unchanged. -/
def insertPeer (id : NodeId) (l : List NodeId) : List NodeId :=
  if id ∈ l then l else l ++ [id]

/-- `HashSet::insert` on the seen-flood set. -/
def insertSeen (x : Nat) (l : List Nat) : List Nat :=
  if x ∈ l then l else l ++ [x]

/-- `RustDrone::get_current_hop` (drone.rs, lines 188-194). -/
def get_current_hop (packet : Packet) : Option NodeId :=
  packet.routing_header.hops.get? packet.routing_header.hop_index

/-- `RustDrone::get_next_hop` (drone.rs, lines 196-202). -/
def get_next_hop (packet : Packet) : Option NodeId :=
  packet.routing_header.hops.get? (packet.routing_header.hop_index + 1)

/-- The Nack packet built by `RustDrone::return_nack` (drone.rs, lines
306-329): hops are the reverse of the prefix of the offending packet's
hops up to and including `hop_index`, the new `hop_index` is `0`, the
`fragment_index` is copied from a Fragment payload and `0` otherwise,
and the session id is echoed. -/
def make_nack (packet : Packet) (nack_type : NackType) : Packet :=
  { pack_type := PacketType.Nack
      { fragment_index :=
          match packet.pack_type with
          | PacketType.MsgFragment fragment => fragment.fragment_index
          | _ => 0,
        nack_type := nack_type },
    routing_header :=
      { hops := (packet.routing_header.hops.take
          (packet.routing_header.hop_index + 1)).reverse,
        hop_index := 0 },
    session_id := packet.session_id }

/-- Whether a payload is a message fragment (`matches!(packet.pack_type,
PacketType::MsgFragment(_))`). -/
def isFragment (packet : Packet) : Bool :=
  match packet.pack_type with
  | PacketType.MsgFragment _ => true
  | _ => false

/-- Whether a payload is a Nack. -/
def isNackPacket (packet : Packet) : Bool :=
  match packet.pack_type with
  | PacketType.Nack _ => true
  | _ => false

mutual

/-- `RustDrone::deliver_packet` (drone.rs, lines 204-238).  On a
disconnected channel the destination is evicted from the peer table (an
extra error log if it was not there), a warning is logged, an
`ErrorInRouting(sender_id)` Nack is synthesized, and a `PacketDropped`
event is emitted; on any other send failure the drone logs an error and
emits `PacketDropped`; on success it emits `PacketSent`. -/
def deliver_packet : Nat → Env → RustDrone → NodeId → Packet →
    Option (RustDrone × List Output)
  | 0, _, _, _, _ => none
  | fuel + 1, env, st, sender_id, packet =>
    match env.trySend sender_id with
    | SendOutcome.disconnected =>
      let absent_log : List Output :=
        if sender_id ∈ st.packet_send then [] else [Output.log]
      let st1 : RustDrone :=
        { st with packet_send := st.packet_send.erase sender_id }
      match return_nack fuel env st1 packet (NackType.ErrorInRouting sender_id) with
      | none => none
      | some (st2, outs) =>
        some (st2, absent_log ++ [Output.log] ++ outs
          ++ emitEvent env (DroneEvent.PacketDropped packet))
    | SendOutcome.full =>
      some (st, [Output.log] ++ emitEvent env (DroneEvent.PacketDropped packet))
    | SendOutcome.ok =>
      some (st, [Output.sent sender_id packet]
        ++ emitEvent env (DroneEvent.PacketSent packet))

/-- `RustDrone::route_packet` (drone.rs, lines 240-296). -/
def route_packet : Nat → Env → RustDrone → Packet →
    Option (RustDrone × List Output)
  | 0, _, _, _ => none
  | fuel + 1, env, st, packet =>
    match get_next_hop packet with
    | none =>
      if isNackPacket packet then
        -- destination is the drone itself and the packet is a Nack:
        -- absorb silently (debug log only)
        some (st, [Output.log])
      else
        Option.map (fun r => (r.1, Output.log :: r.2))
          (return_nack fuel env st packet NackType.DestinationIsDrone)
    | some next_hop =>
      if next_hop ∈ st.packet_send then
        if !isFragment packet || env.sample ≥ st.pdr then
          let packet' : Packet :=
            { packet with routing_header :=
                { packet.routing_header with
                    hop_index := packet.routing_header.hop_index + 1 } }
          Option.map (fun r => (r.1, Output.log :: r.2))
            (deliver_packet fuel env st next_hop packet')
        else
          Option.map
            (fun r => (r.1, [Output.log]
              ++ emitEvent env (DroneEvent.PacketDropped packet) ++ r.2))
            (return_nack fuel env st packet NackType.Dropped)
      else
        Option.map (fun r => (r.1, Output.log :: r.2))
          (return_nack fuel env st packet (NackType.ErrorInRouting next_hop))

/-- `RustDrone::return_nack` (drone.rs, lines 298-333).  The guard
mirrors the panic of `Vec::split_at` when `hop_index + 1` exceeds the
length of `hops` (`none` = panic). -/
def return_nack : Nat → Env → RustDrone → Packet → NackType →
    Option (RustDrone × List Output)
  | 0, _, _, _, _ => none
  | fuel + 1, env, st, packet, nack_type =>
    if packet.routing_header.hop_index + 1 ≤ packet.routing_header.hops.length then
      Option.map (fun r => (r.1, Output.log :: r.2))
        (route_packet fuel env st (make_nack packet nack_type))
    else
      none

end

/-- The FloodRequest packet forwarded during flood fan-out (drone.rs,
lines 437-444): fresh empty routing header, session id echoed. -/
def flood_request_packet (flood_request : FloodRequest) (session_id : Nat) :
    Packet :=
  { pack_type := PacketType.FloodRequest flood_request,
    routing_header := { hops := [], hop_index := 0 },
    session_id := session_id }

/-- `RustDrone::return_flood_response` (drone.rs, lines 335-374). -/
def return_flood_response (fuel : Nat) (env : Env) (st : RustDrone)
    (flood_request : FloodRequest) (neighbour : NodeId) (session_id : Nat) :
    Option (RustDrone × List Output) :=
  let hops := (flood_request.path_trace.reverse.map Prod.fst)
  if neighbour ∈ st.packet_send then
    let flood_response : Packet :=
      { pack_type := PacketType.FloodResponse
          { flood_id := flood_request.flood_id,
            path_trace := flood_request.path_trace },
        routing_header := { hops := hops, hop_index := 1 },
        session_id := session_id }
    deliver_packet fuel env st neighbour flood_response
  else
    some (st, [Output.log])

/-- The `for` loop of `RustDrone::handle_flood_request` (drone.rs, lines
423-446): iterate over a snapshot of the peer table, skipping the
predecessor, delivering a fresh copy of the flood request to each other
neighbour. -/
def flood_fan_out (fuel : Nat) (env : Env) :
    RustDrone → List NodeId → NodeId → FloodRequest → Nat →
    Option (RustDrone × List Output)
  | st, [], _, _, _ => some (st, [])
  | st, neighbour :: rest, sender_id, flood_request, session_id =>
    if neighbour = sender_id then
      flood_fan_out fuel env st rest sender_id flood_request session_id
    else
      match deliver_packet fuel env st neighbour
          (flood_request_packet flood_request session_id) with
      | none => none
      | some (st1, outs1) =>
        match flood_fan_out fuel env st1 rest sender_id flood_request session_id with
        | none => none
        | some (st2, outs2) => some (st2, outs1 ++ outs2)

/-- `RustDrone::handle_flood_request` (drone.rs, lines 376-456).  The
`unreachable!` on a non-FloodRequest payload is `none`. -/
def handle_flood_request (fuel : Nat) (env : Env) (st : RustDrone)
    (packet : Packet) : Option (RustDrone × List Output) :=
  match packet.pack_type with
  | PacketType.FloodRequest flood_request =>
    match flood_request.path_trace.getLast? with
    | none => some (st, [Output.log])
    | some last =>
      let sender_id := last.1
      let flood_request' : FloodRequest :=
        { flood_request with
            path_trace := flood_request.path_trace ++ [(st.id, NodeType.Drone)] }
      if flood_request'.flood_id ∈ st.seen_flood_requests then
        Option.map (fun r => (r.1, Output.log :: r.2))
          (return_flood_response fuel env st flood_request' sender_id
            packet.session_id)
      else
        let st1 : RustDrone :=
          { st with seen_flood_requests :=
              insertSeen flood_request'.flood_id st.seen_flood_requests }
        if st1.packet_send.length > 1 then
          Option.map (fun r => (r.1, Output.log :: Output.log :: r.2))
            (flood_fan_out fuel env st1 st1.packet_send sender_id
              flood_request' packet.session_id)
        else
          Option.map (fun r => (r.1, Output.log :: Output.log :: r.2))
            (return_flood_response fuel env st1 flood_request' sender_id
              packet.session_id)
  | _ => none

/-- The non-crashing body of `RustDrone::handle_packet` (drone.rs, lines
126-155): flood requests go to the flood engine; otherwise the current
hop is validated against the drone's own id; a mismatch overwrites
`hops[hop_index]` with the drone's id and synthesizes an
`UnexpectedRecipient` Nack instead of routing. -/
def handle_packet_main (fuel : Nat) (env : Env) (st : RustDrone)
    (packet : Packet) : Option (RustDrone × List Output) :=
  match packet.pack_type with
  | PacketType.FloodRequest _ => handle_flood_request fuel env st packet
  | _ =>
    match get_current_hop packet with
    | none => some (st, [Output.log])
    | some current_hop =>
      if current_hop = st.id then
        Option.map (fun r => (r.1, Output.log :: r.2))
          (route_packet fuel env st packet)
      else
        let packet' : Packet :=
          { packet with routing_header :=
              { packet.routing_header with
                  hops := packet.routing_header.hops.set
                    packet.routing_header.hop_index st.id } }
        Option.map (fun r => (r.1, Output.log :: r.2))
          (return_nack fuel env st packet'
            (NackType.UnexpectedRecipient st.id))

/-- `RustDrone::handle_packet` (drone.rs, lines 106-156).  In the
`Crashing` state the first `match` drops FloodRequests (early `return`),
synthesizes an `ErrorInRouting(self.id)` Nack for a fragment, and does
nothing for Ack/Nack/FloodResponse; except for the FloodRequest arm,
control then falls through to the normal handling `match`. -/
def handle_packet (fuel : Nat) (env : Env) (st : RustDrone) (packet : Packet) :
    Option (RustDrone × List Output) :=
  match st.state, packet.pack_type with
  | DroneState.Crashing, PacketType.FloodRequest _ => some (st, [])
  | DroneState.Crashing, PacketType.MsgFragment _ =>
    match return_nack fuel env st packet (NackType.ErrorInRouting st.id) with
    | none => none
    | some (st1, outs1) =>
      match handle_packet_main fuel env st1 packet with
      | none => none
      | some (st2, outs2) => some (st2, outs1 ++ outs2)
  | _, _ => handle_packet_main fuel env st packet

/-- `RustDrone::handle_command` (drone.rs, lines 158-186). -/
def handle_command (st : RustDrone) (command : DroneCommand) :
    RustDrone × List Output × CommandResult :=
  match command with
  | DroneCommand.AddSender node_id =>
    ({ st with packet_send := insertPeer node_id st.packet_send },
      [Output.log], CommandResult.Ok)
  | DroneCommand.RemoveSender node_id =>
    ({ st with packet_send := st.packet_send.erase node_id },
      [Output.log] ++ (if node_id ∈ st.packet_send then [] else [Output.log]),
      CommandResult.Ok)
  | DroneCommand.SetPacketDropRate pdr =>
    ({ st with pdr := pdr }, [Output.log], CommandResult.Ok)
  | DroneCommand.Crash =>
    ({ st with state := DroneState.Crashing }, [Output.log], CommandResult.Quit)

/-- One occurrence on the event loop's two inputs: a command received on
`controller_recv`, a packet received on `packet_recv` (together with the
channel/randomness environment of its dispatch), or the packet channel
reporting that every sender has been dropped. -/
inductive LoopEvent
  | cmdE (c : DroneCommand)
  | pktE (env : Env) (p : Packet)
  | pktClosed

/-- Result of running the event loop against a finite trace of input
events: the loop returned (`terminated`), the trace ran out while the
loop was still blocked on its inputs (`waiting`), or a dispatch panicked
or exhausted its fuel (`panicked`). -/
inductive RunResult
  | terminated (st : RustDrone) (outs : List Output)
  | waiting (st : RustDrone) (outs : List Output)
  | panicked

/-- The draining loop of `RustDrone::run` (drone.rs, lines 87-99),
entered in the `Crashing` state: only the packet input is received
(commands are never consumed, hence skipped here); the loop breaks when
the packet channel reports no remaining sender. -/
def run_crashing (fuel : Nat) : RustDrone → List Output → List LoopEvent →
    RunResult
  | st, outs, [] => RunResult.waiting st outs
  | st, outs, LoopEvent.cmdE _ :: rest => run_crashing fuel st outs rest
  | st, outs, LoopEvent.pktE env p :: rest =>
    match handle_packet fuel env st p with
    | none => RunResult.panicked
    | some (st1, outs1) => run_crashing fuel st1 (outs ++ outs1) rest
  | st, outs, LoopEvent.pktClosed :: _ =>
    RunResult.terminated st (outs ++ [Output.log])

/-- The primary loop of `RustDrone::run` (drone.rs, lines 63-100): a
biased select, commands first.  A `Crash` command breaks the loop with
the state set to `Crashing`, after which the draining loop runs; closure
of the packet channel breaks the loop with an error log, after which the
draining loop is skipped when the state is not `Crashing`. -/
def run_main (fuel : Nat) : RustDrone → List Output → List LoopEvent →
    RunResult
  | st, outs, [] => RunResult.waiting st outs
  | st, outs, LoopEvent.cmdE c :: rest =>
    match handle_command st c with
    | (st1, outs1, CommandResult.Quit) =>
      if st1.state = DroneState.Crashing then
        run_crashing fuel st1 (outs ++ outs1) rest
      else
        RunResult.terminated st1 (outs ++ outs1)
    | (st1, outs1, CommandResult.Ok) => run_main fuel st1 (outs ++ outs1) rest
  | st, outs, LoopEvent.pktE env p :: rest =>
    match handle_packet fuel env st p with
    | none => RunResult.panicked
    | some (st1, outs1) => run_main fuel st1 (outs ++ outs1) rest
  | st, outs, LoopEvent.pktClosed :: rest =>
    if st.state = DroneState.Crashing then
      run_crashing fuel st (outs ++ [Output.log]) rest
    else
      RunResult.terminated st (outs ++ [Output.log])

/-- `RustDrone::run` (drone.rs, lines 59-102): set the state to
`Running` and enter the primary loop. -/
def run (fuel : Nat) (st : RustDrone) (events : List LoopEvent) : RunResult :=
  run_main fuel { st with state := DroneState.Running } [] events

/-- `packet.routing_header.hop_index += 1` (drone.rs, line 279). -/
def bump (p : Packet) : Packet :=
  { p with routing_header :=
      { p.routing_header with hop_index := p.routing_header.hop_index + 1 } }

/-- `packet.routing_header.hops[packet.routing_header.hop_index] = self.id`
(drone.rs, line 150). -/
def set_current_hop (p : Packet) (id : NodeId) : Packet :=
  { p with routing_header :=
      { p.routing_header with
          hops := p.routing_header.hops.set p.routing_header.hop_index id } }

/-- Whether a payload is a FloodRequest. -/
def isFloodRequest (p : Packet) : Bool :=
  match p.pack_type with
  | PacketType.FloodRequest _ => true
  | _ => false

/-- Replace a successfully emitted telemetry event by the log line that
the drone writes when the controller channel rejects the event: relates
a run with working telemetry to one whose telemetry fails. -/
def scrubEvent : Output → Output
  | Output.event _ => Output.log
  | o => o

/-- An environment in which every channel send and every telemetry
emission succeeds, and the random sample is `0`. -/
def envOk : Env := ⟨fun _ => SendOutcome.ok, true, 0⟩

/-- An environment in which every packet-channel send fails with a full
channel while telemetry succeeds. -/
def envFull : Env := ⟨fun _ => SendOutcome.full, true, 0⟩

/-- Claim C2, stated over `return_nack` (NACK synthesis, drone.rs lines
298-333).  The synthesized Nack's hops are the reverse of the prefix of
the offending packet's hops through `hop_index` inclusive; its
`fragment_index` is copied from a Fragment payload and `0` otherwise;
the Nack handed over for delivery to entry `1` of the reversed route
carries `hop_index = 1`; and when the reversed route has no entry at
index `1` the Nack is dropped with a log, with no delivery and no
retry. -/
def ReturnNackSpec (fuel : Nat) (env : Env) (st : RustDrone) (p : Packet)
    (k : NackType) : Prop :=
  (make_nack p k).routing_header.hops =
      (p.routing_header.hops.take (p.routing_header.hop_index + 1)).reverse
  ∧ (make_nack p k).pack_type = PacketType.Nack
      { fragment_index :=
          match p.pack_type with
          | PacketType.MsgFragment fragment => fragment.fragment_index
          | _ => 0,
        nack_type := k }
  ∧ return_nack (fuel + 1) env st p k =
      Option.map (fun r => (r.1, Output.log :: r.2))
        (route_packet fuel env st (make_nack p k))
  ∧ (∀ next, (make_nack p k).routing_header.hops.get? 1 = some next →
      next ∈ st.packet_send → env.trySend next = SendOutcome.ok →
      return_nack (fuel + 3) env st p k =
        some (st, Output.log :: Output.log ::
          Output.sent next (bump (make_nack p k)) ::
          emitEvent env (DroneEvent.PacketSent (bump (make_nack p k)))))
  ∧ (bump (make_nack p k)).routing_header.hop_index = 1
  ∧ (p.routing_header.hop_index = 0 →
      return_nack (fuel + 3) env st p k = some (st, [Output.log, Output.log]))

/-- Claim C3, stated over `route_packet` (drone.rs lines 240-296) for a
packet whose next hop exists and is connected: a Fragment is forwarded
exactly when the sample is `≥ pdr` (always with `pdr = 0`, never with
`pdr = 1`), every other payload is always forwarded; forwarding bumps
`hop_index` and hands the packet to the delivery subsystem addressed to
the next hop; a simulated drop emits `PacketDropped` for the original
packet and synthesizes a `Dropped` Nack. -/
def RoutePacketSpec (fuel : Nat) (env : Env) (st : RustDrone) (p : Packet)
    (next : NodeId) : Prop :=
  (isFragment p = false →
      route_packet (fuel + 1) env st p =
        Option.map (fun r => (r.1, Output.log :: r.2))
          (deliver_packet fuel env st next (bump p)))
  ∧ (isFragment p = true → st.pdr ≤ env.sample →
      route_packet (fuel + 1) env st p =
        Option.map (fun r => (r.1, Output.log :: r.2))
          (deliver_packet fuel env st next (bump p)))
  ∧ (isFragment p = true → env.sample < st.pdr →
      route_packet (fuel + 1) env st p =
        Option.map
          (fun r => (r.1, [Output.log]
            ++ emitEvent env (DroneEvent.PacketDropped p) ++ r.2))
          (return_nack fuel env st p NackType.Dropped))
  ∧ (st.pdr = 0 → 0 ≤ env.sample →
      route_packet (fuel + 1) env st p =
        Option.map (fun r => (r.1, Output.log :: r.2))
          (deliver_packet fuel env st next (bump p)))
  ∧ (st.pdr = 1 → env.sample < 1 → isFragment p = true →
      route_packet (fuel + 1) env st p =
        Option.map
          (fun r => (r.1, [Output.log]
            ++ emitEvent env (DroneEvent.PacketDropped p) ++ r.2))
          (return_nack fuel env st p NackType.Dropped))
  ∧ (env.trySend next = SendOutcome.ok →
      deliver_packet (fuel + 1) env st next (bump p) =
        some (st, Output.sent next (bump p) ::
          emitEvent env (DroneEvent.PacketSent (bump p))))

/-- Claim C4, stated over `handle_packet` in the `Running` state for a
non-FloodRequest packet whose current-hop entry exists: a matching
current hop proceeds to routing; a mismatch synthesizes an
`UnexpectedRecipient(self_id)` Nack (on the header rewritten at
`hop_index`) instead of routing. -/
def HandlePacketValidationSpec (fuel : Nat) (env : Env) (st : RustDrone)
    (p : Packet) (cur : NodeId) : Prop :=
  (cur = st.id →
      handle_packet fuel env st p =
        Option.map (fun r => (r.1, Output.log :: r.2))
          (route_packet fuel env st p))
  ∧ (cur ≠ st.id →
      handle_packet fuel env st p =
        Option.map (fun r => (r.1, Output.log :: r.2))
          (return_nack fuel env st (set_current_hop p st.id)
            (NackType.UnexpectedRecipient st.id)))

/-- Claim C10, stated over `handle_packet` in the `Running` state for a
non-FloodRequest packet with a mismatched current hop: the node first
overwrites `hops[hop_index]` with its own id and then synthesizes the
`UnexpectedRecipient(self_id)` Nack, so the Nack's reversed return path
begins with this node's id. -/
def MismatchRewriteSpec (fuel : Nat) (env : Env) (st : RustDrone)
    (p : Packet) : Prop :=
  handle_packet fuel env st p =
      Option.map (fun r => (r.1, Output.log :: r.2))
        (return_nack fuel env st (set_current_hop p st.id)
          (NackType.UnexpectedRecipient st.id))
  ∧ (make_nack (set_current_hop p st.id)
      (NackType.UnexpectedRecipient st.id)).routing_header.hops.head? =
      some st.id

/-- Claim C5, stated over `handle_flood_request` (drone.rs lines
376-456) for a FloodRequest whose flood id was already seen: the node
still appends `(self_id, Drone)` to the path trace, forwards to nobody,
and sends the predecessor a FloodResponse carrying the extended trace,
with hops the reversed trace ids and `hop_index = 1`. -/
def FloodSeenSpec (fuel : Nat) (env : Env) (st : RustDrone) (p : Packet)
    (fr : FloodRequest) (pred : NodeId) : Prop :=
  let trace' := fr.path_trace ++ [(st.id, NodeType.Drone)]
  let resp : Packet :=
    { pack_type := PacketType.FloodResponse
        { flood_id := fr.flood_id, path_trace := trace' },
      routing_header :=
        { hops := trace'.reverse.map Prod.fst, hop_index := 1 },
      session_id := p.session_id }
  handle_flood_request (fuel + 1) env st p =
    some (st, [Output.log, Output.sent pred resp,
      Output.event (DroneEvent.PacketSent resp)])

/-- Claim C6, stated over `handle_flood_request` for a FloodRequest
whose flood id is new: the id is recorded; with more than one connected
peer, a copy of the extended request with a fresh empty routing header
is forwarded to every connected peer except the predecessor; with at
most one connected peer, no forwarding happens and the FloodResponse
goes straight back to the predecessor. -/
def FloodNewSpec (fuel : Nat) (env : Env) (st : RustDrone) (p : Packet)
    (fr : FloodRequest) (pred : NodeId) : Prop :=
  let fr' : FloodRequest :=
    { fr with path_trace := fr.path_trace ++ [(st.id, NodeType.Drone)] }
  let st1 : RustDrone :=
    { st with seen_flood_requests :=
        insertSeen fr.flood_id st.seen_flood_requests }
  let fpkt := flood_request_packet fr' p.session_id
  let resp : Packet :=
    { pack_type := PacketType.FloodResponse
        { flood_id := fr.flood_id, path_trace := fr'.path_trace },
      routing_header :=
        { hops := fr'.path_trace.reverse.map Prod.fst, hop_index := 1 },
      session_id := p.session_id }
  (st.packet_send.length > 1 →
      handle_flood_request (fuel + 1) env st p =
        some (st1, Output.log :: Output.log ::
          (st.packet_send.filter (fun n => n != pred)).flatMap
            (fun n => [Output.sent n fpkt,
              Output.event (DroneEvent.PacketSent fpkt)])))
  ∧ (st.packet_send.length ≤ 1 → pred ∈ st.packet_send →
      handle_flood_request (fuel + 1) env st p =
        some (st1, [Output.log, Output.log, Output.sent pred resp,
          Output.event (DroneEvent.PacketSent resp)]))

/-! ### Branch equations for the routing functions -/

lemma return_nack_eq (fuel : Nat) (env : Env) (st : RustDrone) (p : Packet)
    (k : NackType)
    (h : p.routing_header.hop_index + 1 ≤ p.routing_header.hops.length) :
    return_nack (fuel + 1) env st p k =
      Option.map (fun r => (r.1, Output.log :: r.2))
        (route_packet fuel env st (make_nack p k)) := by
  simp only [return_nack]
  rw [if_pos h]

lemma route_packet_forward (fuel : Nat) (env : Env) (st : RustDrone)
    (p : Packet) (next : NodeId)
    (hn : get_next_hop p = some next)
    (hm : next ∈ st.packet_send)
    (hf : isFragment p = false ∨ st.pdr ≤ env.sample) :
    route_packet (fuel + 1) env st p =
      Option.map (fun r => (r.1, Output.log :: r.2))
        (deliver_packet fuel env st next (bump p)) := by
  simp only [route_packet]
  rw [hn]
  simp only [hm, if_pos]
  have hc : (!isFragment p || decide (env.sample ≥ st.pdr)) = true := by
    rcases hf with hf | hf
    · simp [hf]
    · simp [ge_iff_le, hf]
  rw [if_pos hc]
  rfl

lemma route_packet_drop (fuel : Nat) (env : Env) (st : RustDrone)
    (p : Packet) (next : NodeId)
    (hn : get_next_hop p = some next)
    (hm : next ∈ st.packet_send)
    (hf : isFragment p = true)
    (hs : env.sample < st.pdr) :
    route_packet (fuel + 1) env st p =
      Option.map
        (fun r => (r.1, [Output.log]
          ++ emitEvent env (DroneEvent.PacketDropped p) ++ r.2))
        (return_nack fuel env st p NackType.Dropped) := by
  simp only [route_packet]
  rw [hn]
  simp only [hm, if_pos]
  have hc : (!isFragment p || decide (env.sample ≥ st.pdr)) = false := by
    simp [hf, ge_iff_le, not_le.mpr hs, hs]
  rw [hc]
  simp

lemma route_packet_dest_nack (fuel : Nat) (env : Env) (st : RustDrone)
    (p : Packet)
    (hn : get_next_hop p = none)
    (hq : isNackPacket p = true) :
    route_packet (fuel + 1) env st p = some (st, [Output.log]) := by
  simp only [route_packet]
  rw [hn]
  simp [hq]

lemma route_packet_dest_other (fuel : Nat) (env : Env) (st : RustDrone)
    (p : Packet)
    (hn : get_next_hop p = none)
    (hq : isNackPacket p = false) :
    route_packet (fuel + 1) env st p =
      Option.map (fun r => (r.1, Output.log :: r.2))
        (return_nack fuel env st p NackType.DestinationIsDrone) := by
  simp only [route_packet]
  rw [hn]
  simp [hq]

lemma route_packet_not_connected (fuel : Nat) (env : Env) (st : RustDrone)
    (p : Packet) (next : NodeId)
    (hn : get_next_hop p = some next)
    (hm : next ∉ st.packet_send) :
    route_packet (fuel + 1) env st p =
      Option.map (fun r => (r.1, Output.log :: r.2))
        (return_nack fuel env st p (NackType.ErrorInRouting next)) := by
  simp only [route_packet]
  rw [hn]
  simp [hm]

lemma deliver_packet_ok (fuel : Nat) (env : Env) (st : RustDrone)
    (d : NodeId) (q : Packet)
    (h : env.trySend d = SendOutcome.ok) :
    deliver_packet (fuel + 1) env st d q =
      some (st, Output.sent d q :: emitEvent env (DroneEvent.PacketSent q)) := by
  simp only [deliver_packet]
  rw [h]
  rfl

lemma deliver_packet_full (fuel : Nat) (env : Env) (st : RustDrone)
    (d : NodeId) (q : Packet)
    (h : env.trySend d = SendOutcome.full) :
    deliver_packet (fuel + 1) env st d q =
      some (st, Output.log :: emitEvent env (DroneEvent.PacketDropped q)) := by
  simp only [deliver_packet]
  rw [h]
  rfl

lemma deliver_packet_disconnected (fuel : Nat) (env : Env) (st : RustDrone)
    (d : NodeId) (q : Packet)
    (h : env.trySend d = SendOutcome.disconnected) :
    deliver_packet (fuel + 1) env st d q =
      Option.map
        (fun r => (r.1,
          (if d ∈ st.packet_send then [] else [Output.log])
            ++ [Output.log] ++ r.2
            ++ emitEvent env (DroneEvent.PacketDropped q)))
        (return_nack fuel env
          { st with packet_send := st.packet_send.erase d }
          q (NackType.ErrorInRouting d)) := by
  simp only [deliver_packet]
  rw [h]
  rcases return_nack fuel env
      { st with packet_send := st.packet_send.erase d }
      q (NackType.ErrorInRouting d) with _ | ⟨st2, outs⟩ <;> rfl

lemma isNackPacket_make_nack (p : Packet) (k : NackType) :
    isNackPacket (make_nack p k) = true := rfl

lemma isFragment_make_nack (p : Packet) (k : NackType) :
    isFragment (make_nack p k) = false := rfl

lemma get_next_hop_make_nack (p : Packet) (k : NackType) :
    get_next_hop (make_nack p k) =
      ((p.routing_header.hops.take
        (p.routing_header.hop_index + 1)).reverse).get? 1 := rfl

lemma bump_make_nack (p : Packet) (k : NackType) :
    (bump (make_nack p k)).routing_header.hop_index = 1 := rfl

/-! ### Further branch equations and state lemmas -/

/-- In the `Running` state the crashing pre-match of `handle_packet` is
skipped and the normal handling runs. -/
lemma handle_packet_running (fuel : Nat) (env : Env) (st : RustDrone)
    (p : Packet) (hst : st.state = DroneState.Running) :
    handle_packet fuel env st p = handle_packet_main fuel env st p := by
  rcases p with ⟨pt, rh, sid⟩
  cases pt <;> simp [handle_packet, hst]

/-- With a matching current hop, `handle_packet_main` routes the
packet. -/
lemma handle_packet_main_route (fuel : Nat) (env : Env) (st : RustDrone)
    (p : Packet) (cur : NodeId)
    (hf : isFloodRequest p = false)
    (hc : get_current_hop p = some cur)
    (hid : cur = st.id) :
    handle_packet_main fuel env st p =
      Option.map (fun r => (r.1, Output.log :: r.2))
        (route_packet fuel env st p) := by
  rcases p with ⟨pt, rh, sid⟩
  cases pt <;>
    simp [isFloodRequest] at hf <;>
    simp [handle_packet_main, get_current_hop] at hc ⊢ <;>
    rw [hc] <;> simp [hid]

/-- With a mismatched current hop, `handle_packet_main` overwrites the
current-hop entry with the own id and synthesizes an
`UnexpectedRecipient` Nack. -/
lemma handle_packet_main_mismatch (fuel : Nat) (env : Env) (st : RustDrone)
    (p : Packet) (cur : NodeId)
    (hf : isFloodRequest p = false)
    (hc : get_current_hop p = some cur)
    (hid : cur ≠ st.id) :
    handle_packet_main fuel env st p =
      Option.map (fun r => (r.1, Output.log :: r.2))
        (return_nack fuel env st (set_current_hop p st.id)
          (NackType.UnexpectedRecipient st.id)) := by
  rcases p with ⟨pt, rh, sid⟩
  cases pt <;>
    simp [isFloodRequest] at hf <;>
    simp [handle_packet_main, get_current_hop] at hc ⊢ <;>
    rw [hc] <;> simp [hid, set_current_hop]

/-- A packet with a current-hop entry has `hop_index` inside `hops`. -/
lemma get_current_hop_lt (p : Packet) (cur : NodeId)
    (hc : get_current_hop p = some cur) :
    p.routing_header.hop_index < p.routing_header.hops.length := by
  by_contra hle
  push_neg at hle
  rw [get_current_hop, List.get?_eq_none.mpr hle] at hc
  exact Option.noConfusion hc

/-- After overwriting the current-hop entry with `id`, the Nack built
from the rewritten packet has a return path starting at `id`. -/
lemma make_nack_set_current_head (p : Packet) (id : NodeId) (k : NackType)
    (hlt : p.routing_header.hop_index < p.routing_header.hops.length) :
    (make_nack (set_current_hop p id) k).routing_header.hops.head? = some id := by
  have hlen : ((p.routing_header.hops.set p.routing_header.hop_index id).take
      (p.routing_header.hop_index + 1)).length = p.routing_header.hop_index + 1 := by
    simp [List.length_take, List.length_set]
    omega
  show (((p.routing_header.hops.set p.routing_header.hop_index id).take
      (p.routing_header.hop_index + 1)).reverse).head? = some id
  rw [List.head?_reverse, List.getLast?_eq_getElem?, hlen]
  simp only [Nat.add_sub_cancel]
  rw [List.getElem?_take_of_lt (Nat.lt_succ_self _)]
  rw [List.getElem?_set_eq_of_lt id (by simpa using hlt)]

/-- Boolean forwarding condition of `route_packet`, true case. -/
lemma fragment_cond_true (env : Env) (st : RustDrone) (p : Packet)
    (h : (!isFragment p || decide (env.sample ≥ st.pdr)) = true) :
    isFragment p = false ∨ st.pdr ≤ env.sample := by
  cases hf : isFragment p
  · exact Or.inl rfl
  · right
    rw [hf] at h
    simpa [ge_iff_le] using h

/-- Boolean forwarding condition of `route_packet`, false case. -/
lemma fragment_cond_false (env : Env) (st : RustDrone) (p : Packet)
    (h : ¬ (!isFragment p || decide (env.sample ≥ st.pdr)) = true) :
    isFragment p = true ∧ env.sample < st.pdr := by
  cases hf : isFragment p
  · rw [hf] at h; simp at h
  · rw [hf] at h
    simp only [Bool.not_true, Bool.false_or, decide_eq_true_eq, ge_iff_le] at h
    exact ⟨rfl, lt_of_not_le h⟩

/-- When no packet channel reports a dropped receiver, the routing
functions leave the whole drone state unchanged. -/
lemma no_disconnect_preserves (fuel : Nat) (env : Env)
    (henv : ∀ n, env.trySend n ≠ SendOutcome.disconnected) :
    (∀ st d q st' outs,
        deliver_packet fuel env st d q = some (st', outs) → st' = st)
    ∧ (∀ st p st' outs,
        route_packet fuel env st p = some (st', outs) → st' = st)
    ∧ (∀ st p k st' outs,
        return_nack fuel env st p k = some (st', outs) → st' = st) := by
  induction fuel with
  | zero =>
    refine ⟨?_, ?_, ?_⟩
    · intro st d q st' outs h
      simp [deliver_packet] at h
    · intro st p st' outs h
      simp [route_packet] at h
    · intro st p k st' outs h
      simp [return_nack] at h
  | succ fuel IH =>
    obtain ⟨IHd, IHr, IHn⟩ := IH
    have hDel : ∀ st d q st' outs,
        deliver_packet (fuel + 1) env st d q = some (st', outs) → st' = st := by
      intro st d q st' outs hEq
      rcases hts : env.trySend d with _ | _ | _
      · rw [deliver_packet_ok fuel env st d q hts] at hEq
        injection hEq with h3
        injection h3 with h1 h2
        exact h1.symm
      · exact absurd hts (henv d)
      · rw [deliver_packet_full fuel env st d q hts] at hEq
        injection hEq with h3
        injection h3 with h1 h2
        exact h1.symm
    have hNack : ∀ st p k st' outs,
        return_nack (fuel + 1) env st p k = some (st', outs) → st' = st := by
      intro st p k st' outs hEq
      by_cases hle : p.routing_header.hop_index + 1 ≤ p.routing_header.hops.length
      · rw [return_nack_eq fuel env st p k hle] at hEq
        obtain ⟨r, hr, hpr⟩ := Option.map_eq_some'.mp hEq
        have := IHr st (make_nack p k) r.1 r.2 (by rw [hr])
        injection hpr with h1 h2
        rw [← h1]
        exact this
      · rw [return_nack] at hEq
        rw [if_neg hle] at hEq
        cases hEq
    have hRoute : ∀ st p st' outs,
        route_packet (fuel + 1) env st p = some (st', outs) → st' = st := by
      intro st p st' outs hEq
      rcases hg : get_next_hop p with _ | next
      · cases hq : isNackPacket p
        · rw [route_packet_dest_other fuel env st p hg hq] at hEq
          obtain ⟨r, hr, hpr⟩ := Option.map_eq_some'.mp hEq
          have := IHn st p NackType.DestinationIsDrone r.1 r.2 (by rw [hr])
          injection hpr with h1 h2
          rw [← h1]
          exact this
        · rw [route_packet_dest_nack fuel env st p hg hq] at hEq
          injection hEq with h3
          injection h3 with h1 h2
          exact h1.symm
      · by_cases hm : next ∈ st.packet_send
        · by_cases hb : (!isFragment p || decide (env.sample ≥ st.pdr)) = true
          · rw [route_packet_forward fuel env st p next hg hm
              (fragment_cond_true env st p hb)] at hEq
            obtain ⟨r, hr, hpr⟩ := Option.map_eq_some'.mp hEq
            have := IHd st next (bump p) r.1 r.2 (by rw [hr])
            injection hpr with h1 h2
            rw [← h1]
            exact this
          · obtain ⟨hf, hs⟩ := fragment_cond_false env st p hb
            rw [route_packet_drop fuel env st p next hg hm hf hs] at hEq
            obtain ⟨r, hr, hpr⟩ := Option.map_eq_some'.mp hEq
            have := IHn st p NackType.Dropped r.1 r.2 (by rw [hr])
            injection hpr with h1 h2
            rw [← h1]
            exact this
        · rw [route_packet_not_connected fuel env st p next hg hm] at hEq
          obtain ⟨r, hr, hpr⟩ := Option.map_eq_some'.mp hEq
          have := IHn st p (NackType.ErrorInRouting next) r.1 r.2 (by rw [hr])
          injection hpr with h1 h2
          rw [← h1]
          exact this
    exact ⟨hDel, hRoute, hNack⟩

/-- The peer table only ever shrinks across the routing functions. -/
lemma packet_send_sublist (fuel : Nat) (env : Env) :
    (∀ st d q st' outs,
        deliver_packet fuel env st d q = some (st', outs) →
        List.Sublist st'.packet_send st.packet_send)
    ∧ (∀ st p st' outs,
        route_packet fuel env st p = some (st', outs) →
        List.Sublist st'.packet_send st.packet_send)
    ∧ (∀ st p k st' outs,
        return_nack fuel env st p k = some (st', outs) →
        List.Sublist st'.packet_send st.packet_send) := by
  induction fuel with
  | zero =>
    refine ⟨?_, ?_, ?_⟩
    · intro st d q st' outs h
      simp [deliver_packet] at h
    · intro st p st' outs h
      simp [route_packet] at h
    · intro st p k st' outs h
      simp [return_nack] at h
  | succ fuel IH =>
    obtain ⟨IHd, IHr, IHn⟩ := IH
    have hNack : ∀ st p k st' outs,
        return_nack (fuel + 1) env st p k = some (st', outs) →
        List.Sublist st'.packet_send st.packet_send := by
      intro st p k st' outs hEq
      by_cases hle : p.routing_header.hop_index + 1 ≤ p.routing_header.hops.length
      · rw [return_nack_eq fuel env st p k hle] at hEq
        obtain ⟨r, hr, hpr⟩ := Option.map_eq_some'.mp hEq
        have := IHr st (make_nack p k) r.1 r.2 (by rw [hr])
        injection hpr with h1 h2
        rw [← h1]
        exact this
      · rw [return_nack] at hEq
        rw [if_neg hle] at hEq
        cases hEq
    have hDel : ∀ st d q st' outs,
        deliver_packet (fuel + 1) env st d q = some (st', outs) →
        List.Sublist st'.packet_send st.packet_send := by
      intro st d q st' outs hEq
      rcases hts : env.trySend d with _ | _ | _
      · rw [deliver_packet_ok fuel env st d q hts] at hEq
        injection hEq with h3
        injection h3 with h1 h2
        rw [← h1]
      · rw [deliver_packet_disconnected fuel env st d q hts] at hEq
        obtain ⟨r, hr, hpr⟩ := Option.map_eq_some'.mp hEq
        have h4 := IHn { st with packet_send := st.packet_send.erase d }
          q (NackType.ErrorInRouting d) r.1 r.2 (by rw [hr])
        injection hpr with h1 h2
        rw [← h1]
        exact h4.trans (List.erase_sublist d st.packet_send)
      · rw [deliver_packet_full fuel env st d q hts] at hEq
        injection hEq with h3
        injection h3 with h1 h2
        rw [← h1]
    have hRoute : ∀ st p st' outs,
        route_packet (fuel + 1) env st p = some (st', outs) →
        List.Sublist st'.packet_send st.packet_send := by
      intro st p st' outs hEq
      rcases hg : get_next_hop p with _ | next
      · cases hq : isNackPacket p
        · rw [route_packet_dest_other fuel env st p hg hq] at hEq
          obtain ⟨r, hr, hpr⟩ := Option.map_eq_some'.mp hEq
          have := IHn st p NackType.DestinationIsDrone r.1 r.2 (by rw [hr])
          injection hpr with h1 h2
          rw [← h1]
          exact this
        · rw [route_packet_dest_nack fuel env st p hg hq] at hEq
          injection hEq with h3
          injection h3 with h1 h2
          rw [← h1]
      · by_cases hm : next ∈ st.packet_send
        · by_cases hb : (!isFragment p || decide (env.sample ≥ st.pdr)) = true
          · rw [route_packet_forward fuel env st p next hg hm
              (fragment_cond_true env st p hb)] at hEq
            obtain ⟨r, hr, hpr⟩ := Option.map_eq_some'.mp hEq
            have := IHd st next (bump p) r.1 r.2 (by rw [hr])
            injection hpr with h1 h2
            rw [← h1]
            exact this
          · obtain ⟨hf, hs⟩ := fragment_cond_false env st p hb
            rw [route_packet_drop fuel env st p next hg hm hf hs] at hEq
            obtain ⟨r, hr, hpr⟩ := Option.map_eq_some'.mp hEq
            have := IHn st p NackType.Dropped r.1 r.2 (by rw [hr])
            injection hpr with h1 h2
            rw [← h1]
            exact this
        · rw [route_packet_not_connected fuel env st p next hg hm] at hEq
          obtain ⟨r, hr, hpr⟩ := Option.map_eq_some'.mp hEq
          have := IHn st p (NackType.ErrorInRouting next) r.1 r.2 (by rw [hr])
          injection hpr with h1 h2
          rw [← h1]
          exact this
    exact ⟨hDel, hRoute, hNack⟩

/-- Telemetry failure turns each emitted event into a log line. -/
lemma scrub_emitEvent (ts : NodeId → SendOutcome) (s : ℚ) (e : DroneEvent) :
    emitEvent ⟨ts, false, s⟩ e
      = (emitEvent ⟨ts, true, s⟩ e).map scrubEvent := rfl

/-- A run with failing telemetry produces the same state and the same
packet deliveries as one with working telemetry; only successfully
emitted events degrade to log lines. -/
lemma ctrl_failure_scrub (fuel : Nat) (ts : NodeId → SendOutcome) (s : ℚ) :
    (∀ st d q,
        deliver_packet fuel ⟨ts, false, s⟩ st d q =
          Option.map (fun r => (r.1, r.2.map scrubEvent))
            (deliver_packet fuel ⟨ts, true, s⟩ st d q))
    ∧ (∀ st p,
        route_packet fuel ⟨ts, false, s⟩ st p =
          Option.map (fun r => (r.1, r.2.map scrubEvent))
            (route_packet fuel ⟨ts, true, s⟩ st p))
    ∧ (∀ st p k,
        return_nack fuel ⟨ts, false, s⟩ st p k =
          Option.map (fun r => (r.1, r.2.map scrubEvent))
            (return_nack fuel ⟨ts, true, s⟩ st p k)) := by
  induction fuel with
  | zero =>
    refine ⟨?_, ?_, ?_⟩
    · intro st d q
      simp [deliver_packet]
    · intro st p
      simp [route_packet]
    · intro st p k
      simp [return_nack]
  | succ fuel IH =>
    obtain ⟨IHd, IHr, IHn⟩ := IH
    have hNack : ∀ st p k,
        return_nack (fuel + 1) ⟨ts, false, s⟩ st p k =
          Option.map (fun r => (r.1, r.2.map scrubEvent))
            (return_nack (fuel + 1) ⟨ts, true, s⟩ st p k) := by
      intro st p k
      by_cases hle : p.routing_header.hop_index + 1 ≤ p.routing_header.hops.length
      · rw [return_nack_eq fuel ⟨ts, false, s⟩ st p k hle,
          return_nack_eq fuel ⟨ts, true, s⟩ st p k hle, IHr st (make_nack p k)]
        cases route_packet (fuel) ⟨ts, true, s⟩ st (make_nack p k) with
        | none => rfl
        | some r => rfl
      · rw [return_nack, return_nack]
        rw [if_neg hle, if_neg hle]
        rfl
    have hDel : ∀ st d q,
        deliver_packet (fuel + 1) ⟨ts, false, s⟩ st d q =
          Option.map (fun r => (r.1, r.2.map scrubEvent))
            (deliver_packet (fuel + 1) ⟨ts, true, s⟩ st d q) := by
      intro st d q
      rcases hts : ts d with _ | _ | _
      · rw [deliver_packet_ok fuel ⟨ts, false, s⟩ st d q hts,
          deliver_packet_ok fuel ⟨ts, true, s⟩ st d q hts]
        simp [emitEvent, scrubEvent]
      · rw [deliver_packet_disconnected fuel ⟨ts, false, s⟩ st d q hts,
          deliver_packet_disconnected fuel ⟨ts, true, s⟩ st d q hts,
          IHn { st with packet_send := st.packet_send.erase d } q
            (NackType.ErrorInRouting d)]
        cases return_nack fuel ⟨ts, true, s⟩
            { st with packet_send := st.packet_send.erase d } q
            (NackType.ErrorInRouting d) with
        | none => rfl
        | some r =>
          simp [emitEvent, scrubEvent, List.map_append]
          split <;> simp [scrubEvent]
      · rw [deliver_packet_full fuel ⟨ts, false, s⟩ st d q hts,
          deliver_packet_full fuel ⟨ts, true, s⟩ st d q hts]
        simp [emitEvent, scrubEvent]
    have hRoute : ∀ st p,
        route_packet (fuel + 1) ⟨ts, false, s⟩ st p =
          Option.map (fun r => (r.1, r.2.map scrubEvent))
            (route_packet (fuel + 1) ⟨ts, true, s⟩ st p) := by
      intro st p
      rcases hg : get_next_hop p with _ | next
      · cases hq : isNackPacket p
        · rw [route_packet_dest_other fuel ⟨ts, false, s⟩ st p hg hq,
            route_packet_dest_other fuel ⟨ts, true, s⟩ st p hg hq,
            IHn st p NackType.DestinationIsDrone]
          cases return_nack fuel ⟨ts, true, s⟩ st p
              NackType.DestinationIsDrone with
          | none => rfl
          | some r => rfl
        · rw [route_packet_dest_nack fuel ⟨ts, false, s⟩ st p hg hq,
            route_packet_dest_nack fuel ⟨ts, true, s⟩ st p hg hq]
          rfl
      · by_cases hm : next ∈ st.packet_send
        · by_cases hb : (!isFragment p
              || decide ((⟨ts, true, s⟩ : Env).sample ≥ st.pdr)) = true
          · rw [route_packet_forward fuel ⟨ts, false, s⟩ st p next hg hm
                (fragment_cond_true ⟨ts, true, s⟩ st p hb),
              route_packet_forward fuel ⟨ts, true, s⟩ st p next hg hm
                (fragment_cond_true ⟨ts, true, s⟩ st p hb),
              IHd st next (bump p)]
            cases deliver_packet fuel ⟨ts, true, s⟩ st next (bump p) with
            | none => rfl
            | some r => rfl
          · obtain ⟨hf, hs⟩ := fragment_cond_false ⟨ts, true, s⟩ st p hb
            rw [route_packet_drop fuel ⟨ts, false, s⟩ st p next hg hm hf hs,
              route_packet_drop fuel ⟨ts, true, s⟩ st p next hg hm hf hs,
              IHn st p NackType.Dropped]
            cases return_nack fuel ⟨ts, true, s⟩ st p NackType.Dropped with
            | none => rfl
            | some r => simp [emitEvent, scrubEvent, List.map_append]
        · rw [route_packet_not_connected fuel ⟨ts, false, s⟩ st p next hg hm,
            route_packet_not_connected fuel ⟨ts, true, s⟩ st p next hg hm,
            IHn st p (NackType.ErrorInRouting next)]
          cases return_nack fuel ⟨ts, true, s⟩ st p
              (NackType.ErrorInRouting next) with
          | none => rfl
          | some r => rfl
    exact ⟨hDel, hRoute, hNack⟩

/-- A flood fan-out in which every channel send succeeds delivers one
copy of the request, and emits one `PacketSent` event, for each peer in
the snapshot other than the predecessor, and leaves the state
unchanged. -/
lemma flood_fan_out_ok (fuel : Nat) (env : Env)
    (hok : ∀ n, env.trySend n = SendOutcome.ok) (hctrl : env.ctrlOk = true)
    (pred : NodeId) (fr : FloodRequest) (sid : Nat) :
    ∀ l st, flood_fan_out (fuel + 1) env st l pred fr sid =
      some (st, (l.filter (fun n => n != pred)).flatMap
        (fun n => [Output.sent n (flood_request_packet fr sid),
          Output.event (DroneEvent.PacketSent (flood_request_packet fr sid))])) := by
  intro l
  induction l with
  | nil => intro st; simp [flood_fan_out]
  | cons n rest IH =>
    intro st
    by_cases hn : n = pred
    · simp [flood_fan_out, hn, IH st]
    · rw [flood_fan_out]
      simp only [if_neg hn]
      rw [deliver_packet_ok fuel env st n (flood_request_packet fr sid) (hok n)]
      simp [IH st, emitEvent, hctrl, hn]

/-- The draining loop returns only after the packet input reports that
no sender remains. -/
lemma run_crashing_terminated_mem (fuel : Nat) :
    ∀ events (st : RustDrone) (outs : List Output) st' outs',
      run_crashing fuel st outs events = RunResult.terminated st' outs' →
      LoopEvent.pktClosed ∈ events := by
  intro events
  induction events with
  | nil =>
    intro st outs st' outs' h
    simp [run_crashing] at h
  | cons e rest IH =>
    intro st outs st' outs' h
    cases e with
    | cmdE c =>
      simp only [run_crashing] at h
      exact List.mem_cons_of_mem _ (IH st outs st' outs' h)
    | pktE env p =>
      simp only [run_crashing] at h
      cases hp : handle_packet fuel env st p with
      | none =>
        rw [hp] at h
        exact RunResult.noConfusion h
      | some r =>
        obtain ⟨st1, outs1⟩ := r
        rw [hp] at h
        exact List.mem_cons_of_mem _ (IH st1 (outs ++ outs1) st' outs' h)
    | pktClosed => exact List.mem_cons_self _ _

/-- The primary loop returns only after the packet input reports that
no sender remains, whether it breaks directly or drains first. -/
lemma run_main_terminated_mem (fuel : Nat) :
    ∀ events (st : RustDrone) (outs : List Output) st' outs',
      run_main fuel st outs events = RunResult.terminated st' outs' →
      LoopEvent.pktClosed ∈ events := by
  intro events
  induction events with
  | nil =>
    intro st outs st' outs' h
    simp [run_main] at h
  | cons e rest IH =>
    intro st outs st' outs' h
    cases e with
    | cmdE c =>
      cases c with
      | AddSender id =>
        simp only [run_main, handle_command] at h
        exact List.mem_cons_of_mem _ (IH _ _ st' outs' h)
      | RemoveSender id =>
        simp only [run_main, handle_command] at h
        exact List.mem_cons_of_mem _ (IH _ _ st' outs' h)
      | SetPacketDropRate pdr =>
        simp only [run_main, handle_command] at h
        exact List.mem_cons_of_mem _ (IH _ _ st' outs' h)
      | Crash =>
        simp only [run_main, handle_command, reduceIte] at h
        exact List.mem_cons_of_mem _
          (run_crashing_terminated_mem fuel rest _ _ st' outs' h)
    | pktE env p =>
      simp only [run_main] at h
      cases hp : handle_packet fuel env st p with
      | none =>
        rw [hp] at h
        exact RunResult.noConfusion h
      | some r =>
        obtain ⟨st1, outs1⟩ := r
        rw [hp] at h
        exact List.mem_cons_of_mem _ (IH st1 (outs ++ outs1) st' outs' h)
    | pktClosed => exact List.mem_cons_self _ _

/-! ### Claim theorems -/

/-- Claim C2: for every packet for which the node synthesizes a Nack,
the Nack carries the reverse of the travelled prefix
`hops[0..=hop_index]` as its route; the Nack handed to the first return
hop (entry `1` of the reversed route, when connected and deliverable)
carries `hop_index = 1`; the `fragment_index` is copied from a Fragment
payload and is `0` otherwise; and when the reversed route has no entry
at index `1` the Nack is dropped with a log and not retried. -/
theorem return_nack_reverse_path (fuel : Nat) (env : Env) (st : RustDrone)
    (p : Packet) (k : NackType)
    (h : p.routing_header.hop_index < p.routing_header.hops.length) :
    ReturnNackSpec fuel env st p k := by
  refine ⟨rfl, rfl, return_nack_eq fuel env st p k h, ?_, rfl, ?_⟩
  · intro next h2 h3 h4
    rw [show fuel + 3 = (fuel + 2) + 1 from rfl,
      return_nack_eq (fuel + 2) env st p k h,
      route_packet_forward (fuel + 1) env st (make_nack p k) next
        (by rw [get_next_hop_make_nack]; exact h2) h3
        (Or.inl (isFragment_make_nack p k)),
      deliver_packet_ok fuel env st next (bump (make_nack p k)) h4]
    rfl
  · intro h0
    have hnone : get_next_hop (make_nack p k) = none := by
      rw [get_next_hop_make_nack]
      refine List.get?_eq_none.mpr ?_
      simp [List.length_take, h0]
    rw [show fuel + 3 = (fuel + 2) + 1 from rfl,
      return_nack_eq (fuel + 2) env st p k h,
      route_packet_dest_nack (fuel + 1) env st (make_nack p k) hnone
        (isNackPacket_make_nack p k)]
    rfl

/-- Witness for C2 at a concrete Fragment with hops `[1, 2]` and
`hop_index = 1`. -/
theorem return_nack_reverse_path_witness :
    (1 : Nat) < 2 ∧
    ReturnNackSpec 0 envOk ⟨2, 0, [1], [], DroneState.Running⟩
      ⟨PacketType.MsgFragment ⟨7, 1, 0, []⟩, ⟨[1, 2], 1⟩, 9⟩
      NackType.Dropped :=
  ⟨by decide,
    return_nack_reverse_path 0 envOk ⟨2, 0, [1], [], DroneState.Running⟩
      ⟨PacketType.MsgFragment ⟨7, 1, 0, []⟩, ⟨[1, 2], 1⟩, 9⟩
      NackType.Dropped (by decide)⟩

/-- Claim C3: for a packet whose next hop exists and is connected, a
Fragment is forwarded exactly when the uniform sample is at least the
drop rate (always at `pdr = 0`, never at `pdr = 1` for samples in
`[0,1)`), all other payloads are always forwarded; forwarding
increments `hop_index` and hands the packet to the delivery subsystem
addressed to the next hop; a simulated drop emits `PacketDropped` for
the original packet with un-incremented `hop_index` and synthesizes a
`Dropped` Nack. -/
theorem route_packet_forwarding (fuel : Nat) (env : Env) (st : RustDrone)
    (p : Packet) (next : NodeId)
    (hn : get_next_hop p = some next)
    (hm : next ∈ st.packet_send) :
    RoutePacketSpec fuel env st p next := by
  refine ⟨?_, ?_, ?_, ?_, ?_, ?_⟩
  · intro hf
    exact route_packet_forward fuel env st p next hn hm (Or.inl hf)
  · intro _ hs
    exact route_packet_forward fuel env st p next hn hm (Or.inr hs)
  · intro hf hs
    exact route_packet_drop fuel env st p next hn hm hf hs
  · intro hp hs
    refine route_packet_forward fuel env st p next hn hm (Or.inr ?_)
    rw [hp]; exact hs
  · intro hp hs hf
    refine route_packet_drop fuel env st p next hn hm hf ?_
    rw [hp]; exact hs
  · intro hok
    exact deliver_packet_ok fuel env st next (bump p) hok

/-- Witness for C3 at a concrete Fragment with next hop `3`. -/
theorem route_packet_forwarding_witness :
    get_next_hop ⟨PacketType.MsgFragment ⟨0, 1, 0, []⟩, ⟨[1, 2, 3], 1⟩, 4⟩
        = some 3 ∧
    3 ∈ ([3] : List NodeId) ∧
    RoutePacketSpec 0 envOk ⟨2, 0, [3], [], DroneState.Running⟩
      ⟨PacketType.MsgFragment ⟨0, 1, 0, []⟩, ⟨[1, 2, 3], 1⟩, 4⟩ 3 :=
  ⟨by decide, by decide,
    route_packet_forwarding 0 envOk ⟨2, 0, [3], [], DroneState.Running⟩
      ⟨PacketType.MsgFragment ⟨0, 1, 0, []⟩, ⟨[1, 2, 3], 1⟩, 4⟩ 3
      (by decide) (by decide)⟩

/-- Claim C4: for every non-FloodRequest packet received while Running
whose current-hop entry exists, the node first compares
`hops[hop_index]` with its own id; on a match it routes the packet, on
a mismatch it synthesizes an `UnexpectedRecipient(self_id)` Nack
instead of routing. -/
theorem handle_packet_validates_current_hop (fuel : Nat) (env : Env)
    (st : RustDrone) (p : Packet) (cur : NodeId)
    (hst : st.state = DroneState.Running)
    (hf : isFloodRequest p = false)
    (hc : get_current_hop p = some cur) :
    HandlePacketValidationSpec fuel env st p cur := by
  constructor
  · intro hid
    rw [handle_packet_running fuel env st p hst]
    exact handle_packet_main_route fuel env st p cur hf hc hid
  · intro hid
    rw [handle_packet_running fuel env st p hst]
    exact handle_packet_main_mismatch fuel env st p cur hf hc hid

/-- Witness for C4 at a concrete Ack whose current hop matches. -/
theorem handle_packet_validates_current_hop_witness :
    (⟨2, 0, [3], [], DroneState.Running⟩ : RustDrone).state
        = DroneState.Running ∧
    isFloodRequest ⟨PacketType.Ack ⟨0⟩, ⟨[1, 2, 3], 1⟩, 4⟩ = false ∧
    get_current_hop ⟨PacketType.Ack ⟨0⟩, ⟨[1, 2, 3], 1⟩, 4⟩ = some 2 ∧
    HandlePacketValidationSpec 5 envOk ⟨2, 0, [3], [], DroneState.Running⟩
      ⟨PacketType.Ack ⟨0⟩, ⟨[1, 2, 3], 1⟩, 4⟩ 2 :=
  ⟨rfl, rfl, rfl,
    handle_packet_validates_current_hop 5 envOk
      ⟨2, 0, [3], [], DroneState.Running⟩
      ⟨PacketType.Ack ⟨0⟩, ⟨[1, 2, 3], 1⟩, 4⟩ 2 rfl rfl rfl⟩

/-- Claim C10: on a current-hop mismatch while Running, the node
overwrites `hops[hop_index]` with its own id before synthesizing the
`UnexpectedRecipient(self_id)` Nack, so the reversed return path of the
Nack begins at the own id rather than at the id found in the mismatched
header. -/
theorem mismatch_rewrites_current_hop (fuel : Nat) (env : Env)
    (st : RustDrone) (p : Packet) (cur : NodeId)
    (hst : st.state = DroneState.Running)
    (hf : isFloodRequest p = false)
    (hc : get_current_hop p = some cur)
    (hid : cur ≠ st.id) :
    MismatchRewriteSpec fuel env st p := by
  constructor
  · rw [handle_packet_running fuel env st p hst]
    exact handle_packet_main_mismatch fuel env st p cur hf hc hid
  · exact make_nack_set_current_head p st.id
      (NackType.UnexpectedRecipient st.id) (get_current_hop_lt p cur hc)

/-- Witness for C10 at a concrete Ack whose current-hop entry is `5`
while the drone id is `2`. -/
theorem mismatch_rewrites_current_hop_witness :
    (⟨2, 0, [3], [], DroneState.Running⟩ : RustDrone).state
        = DroneState.Running ∧
    isFloodRequest ⟨PacketType.Ack ⟨0⟩, ⟨[1, 5, 3], 1⟩, 4⟩ = false ∧
    get_current_hop ⟨PacketType.Ack ⟨0⟩, ⟨[1, 5, 3], 1⟩, 4⟩ = some 5 ∧
    (5 : NodeId) ≠ 2 ∧
    MismatchRewriteSpec 5 envOk ⟨2, 0, [3], [], DroneState.Running⟩
      ⟨PacketType.Ack ⟨0⟩, ⟨[1, 5, 3], 1⟩, 4⟩ :=
  ⟨rfl, rfl, rfl, by decide,
    mismatch_rewrites_current_hop 5 envOk
      ⟨2, 0, [3], [], DroneState.Running⟩
      ⟨PacketType.Ack ⟨0⟩, ⟨[1, 5, 3], 1⟩, 4⟩ 5 rfl rfl rfl (by decide)⟩

/-- Claim C5: a FloodRequest whose flood id was already seen still gets
`(self_id, Drone)` appended to its path trace, is forwarded to nobody,
and triggers a FloodResponse back to the predecessor carrying the
extended trace, with hops the reversed trace ids and `hop_index = 1`. -/
theorem flood_request_seen_responds (fuel : Nat) (env : Env) (st : RustDrone)
    (p : Packet) (fr : FloodRequest) (pred : NodeId) (t : NodeType)
    (hp : p.pack_type = PacketType.FloodRequest fr)
    (hl : fr.path_trace.getLast? = some (pred, t))
    (hseen : fr.flood_id ∈ st.seen_flood_requests)
    (hmem : pred ∈ st.packet_send)
    (hok : env.trySend pred = SendOutcome.ok)
    (hctrl : env.ctrlOk = true) :
    FloodSeenSpec fuel env st p fr pred := by
  show handle_flood_request (fuel + 1) env st p = _
  rw [handle_flood_request, hp]
  simp only [hl]
  rw [if_pos hseen]
  rw [return_flood_response]
  simp only [if_pos hmem]
  rw [deliver_packet_ok fuel env st pred _ hok]
  simp [emitEvent, hctrl]

/-- Witness for C5: drone `2` with peer `1`, flood id `77` already
seen. -/
theorem flood_request_seen_responds_witness :
    (⟨PacketType.FloodRequest ⟨77, 1, [(1, NodeType.Client)]⟩,
        ⟨[], 0⟩, 5⟩ : Packet).pack_type
      = PacketType.FloodRequest ⟨77, 1, [(1, NodeType.Client)]⟩ ∧
    ([(1, NodeType.Client)] : List (NodeId × NodeType)).getLast?
      = some (1, NodeType.Client) ∧
    (77 : Nat) ∈ [77] ∧
    (1 : NodeId) ∈ [1] ∧
    envOk.trySend 1 = SendOutcome.ok ∧
    envOk.ctrlOk = true ∧
    FloodSeenSpec 4 envOk ⟨2, 0, [1], [77], DroneState.Running⟩
      ⟨PacketType.FloodRequest ⟨77, 1, [(1, NodeType.Client)]⟩, ⟨[], 0⟩, 5⟩
      ⟨77, 1, [(1, NodeType.Client)]⟩ 1 :=
  ⟨rfl, rfl, by decide, by decide, rfl, rfl,
    flood_request_seen_responds 4 envOk
      ⟨2, 0, [1], [77], DroneState.Running⟩
      ⟨PacketType.FloodRequest ⟨77, 1, [(1, NodeType.Client)]⟩, ⟨[], 0⟩, 5⟩
      ⟨77, 1, [(1, NodeType.Client)]⟩ 1 NodeType.Client
      rfl rfl (by decide) (by decide) rfl rfl⟩

/-- Claim C6: a FloodRequest with a new flood id is recorded in the
seen set; with more than one connected peer the extended request is
forwarded, with a fresh empty routing header, to every connected peer
except the predecessor; with at most one connected peer nothing is
forwarded and the FloodResponse goes straight back to the
predecessor. -/
theorem flood_request_new_forwards (fuel : Nat) (env : Env) (st : RustDrone)
    (p : Packet) (fr : FloodRequest) (pred : NodeId) (t : NodeType)
    (hp : p.pack_type = PacketType.FloodRequest fr)
    (hl : fr.path_trace.getLast? = some (pred, t))
    (hnew : fr.flood_id ∉ st.seen_flood_requests)
    (hok : ∀ n, env.trySend n = SendOutcome.ok)
    (hctrl : env.ctrlOk = true) :
    FloodNewSpec fuel env st p fr pred := by
  constructor
  · intro hlen
    show handle_flood_request (fuel + 1) env st p = _
    rw [handle_flood_request, hp]
    simp only [hl]
    rw [if_neg hnew]
    rw [if_pos (by simpa using hlen)]
    rw [flood_fan_out_ok fuel env hok hctrl pred _ p.session_id]
    simp
  · intro hlen hmem
    show handle_flood_request (fuel + 1) env st p = _
    rw [handle_flood_request, hp]
    simp only [hl]
    rw [if_neg hnew]
    rw [if_neg (by simp; omega)]
    rw [return_flood_response]
    simp only [if_pos (show pred ∈
      ({ st with seen_flood_requests :=
        insertSeen fr.flood_id st.seen_flood_requests } : RustDrone).packet_send
      from hmem)]
    rw [deliver_packet_ok fuel env _ pred _ (hok pred)]
    simp [emitEvent, hctrl]

/-- Witness for C6: drone `2` with peers `[1, 3]`, fresh flood id `77`
arriving from predecessor `1`. -/
theorem flood_request_new_forwards_witness :
    (⟨PacketType.FloodRequest ⟨77, 1, [(1, NodeType.Client)]⟩,
        ⟨[], 0⟩, 5⟩ : Packet).pack_type
      = PacketType.FloodRequest ⟨77, 1, [(1, NodeType.Client)]⟩ ∧
    ([(1, NodeType.Client)] : List (NodeId × NodeType)).getLast?
      = some (1, NodeType.Client) ∧
    (77 : Nat) ∉ ([] : List Nat) ∧
    (∀ n, envOk.trySend n = SendOutcome.ok) ∧
    envOk.ctrlOk = true ∧
    FloodNewSpec 4 envOk ⟨2, 0, [1, 3], [], DroneState.Running⟩
      ⟨PacketType.FloodRequest ⟨77, 1, [(1, NodeType.Client)]⟩, ⟨[], 0⟩, 5⟩
      ⟨77, 1, [(1, NodeType.Client)]⟩ 1 :=
  ⟨rfl, rfl, by decide, fun _ => rfl, rfl,
    flood_request_new_forwards 4 envOk
      ⟨2, 0, [1, 3], [], DroneState.Running⟩
      ⟨PacketType.FloodRequest ⟨77, 1, [(1, NodeType.Client)]⟩, ⟨[], 0⟩, 5⟩
      ⟨77, 1, [(1, NodeType.Client)]⟩ 1 NodeType.Client
      rfl rfl (by decide) (fun _ => rfl) rfl⟩

/-- Claim C7: a packet with no next hop is absorbed silently when it is
a Nack and yields a `DestinationIsDrone` Nack otherwise; a packet whose
next hop exists but is not in the peer table yields an
`ErrorInRouting(next_hop)` Nack, and (whenever no channel reports a
dropped receiver, the only event that mutates the table) the peer table
is left unchanged. -/
theorem route_packet_degenerate_and_missing (fuel : Nat) (env : Env)
    (st : RustDrone) (p : Packet) :
    (get_next_hop p = none → isNackPacket p = true →
        route_packet (fuel + 1) env st p = some (st, [Output.log]))
    ∧ (get_next_hop p = none → isNackPacket p = false →
        route_packet (fuel + 1) env st p =
          Option.map (fun r => (r.1, Output.log :: r.2))
            (return_nack fuel env st p NackType.DestinationIsDrone))
    ∧ (∀ next, get_next_hop p = some next → next ∉ st.packet_send →
        route_packet (fuel + 1) env st p =
          Option.map (fun r => (r.1, Output.log :: r.2))
            (return_nack fuel env st p (NackType.ErrorInRouting next))
        ∧ ((∀ n, env.trySend n ≠ SendOutcome.disconnected) →
            ∀ st' outs, route_packet (fuel + 1) env st p = some (st', outs) →
              st'.packet_send = st.packet_send)) := by
  refine ⟨?_, ?_, ?_⟩
  · exact fun hn hq => route_packet_dest_nack fuel env st p hn hq
  · exact fun hn hq => route_packet_dest_other fuel env st p hn hq
  · intro next hn hm
    refine ⟨route_packet_not_connected fuel env st p next hn hm, ?_⟩
    intro henv st' outs hEq
    rw [(no_disconnect_preserves (fuel + 1) env henv).2.1 st p st' outs hEq]

/-- Claim C9 (amended): on a successful send exactly a `PacketSent`
event is emitted; on a disconnected receiver the destination is evicted
from the peer table and a `PacketDropped` event is emitted; on any
other send failure the node logs an error and also emits
`PacketDropped`; telemetry failure never alters the resulting state or
the delivered packets, it only degrades emitted events to log lines. -/
theorem deliver_packet_contract (fuel : Nat) (env : Env) (st : RustDrone)
    (d : NodeId) (q : Packet) :
    (env.trySend d = SendOutcome.ok →
        deliver_packet (fuel + 1) env st d q =
          some (st, Output.sent d q :: emitEvent env (DroneEvent.PacketSent q)))
    ∧ (env.trySend d = SendOutcome.disconnected → st.packet_send.Nodup →
        ∀ st' outs, deliver_packet (fuel + 1) env st d q = some (st', outs) →
          d ∉ st'.packet_send ∧
          (env.ctrlOk = true →
            Output.event (DroneEvent.PacketDropped q) ∈ outs))
    ∧ (env.trySend d = SendOutcome.full →
        deliver_packet (fuel + 1) env st d q =
          some (st, Output.log :: emitEvent env (DroneEvent.PacketDropped q)))
    ∧ (∀ ts s st2 d2 q2,
        deliver_packet fuel ⟨ts, false, s⟩ st2 d2 q2 =
          Option.map (fun r => (r.1, r.2.map scrubEvent))
            (deliver_packet fuel ⟨ts, true, s⟩ st2 d2 q2)) := by
  refine ⟨?_, ?_, ?_, ?_⟩
  · exact fun h => deliver_packet_ok fuel env st d q h
  · intro hts hnd st' outs hEq
    rw [deliver_packet_disconnected fuel env st d q hts] at hEq
    obtain ⟨r, hr, hpr⟩ := Option.map_eq_some'.mp hEq
    injection hpr with h1 h2
    constructor
    · rw [← h1]
      have hsub := (packet_send_sublist fuel env).2.2
        { st with packet_send := st.packet_send.erase d } q
        (NackType.ErrorInRouting d) r.1 r.2 hr
      intro hmem
      have hin : d ∈ st.packet_send.erase d := hsub.subset hmem
      exact ((List.Nodup.mem_erase_iff hnd).mp hin).1 rfl
    · intro hctrl
      rw [← h2]
      simp [emitEvent, hctrl]
  · exact fun h => deliver_packet_full fuel env st d q h
  · intro ts s st2 d2 q2
    exact (ctrl_failure_scrub fuel ts s).1 st2 d2 q2

/-- Counterexample to C9 as frozen: on a full-channel failure the node
does not only log, it also emits a `PacketDropped` telemetry event. -/
theorem deliver_packet_full_emits_drop_event :
    deliver_packet 5 envFull ⟨2, 0, [1], [], DroneState.Running⟩ 1
        ⟨PacketType.Ack ⟨0⟩, ⟨[1, 2], 1⟩, 4⟩
      = some (⟨2, 0, [1], [], DroneState.Running⟩,
        [Output.log, Output.event (DroneEvent.PacketDropped
          ⟨PacketType.Ack ⟨0⟩, ⟨[1, 2], 1⟩, 4⟩)])
    ∧ Output.event (DroneEvent.PacketDropped
        ⟨PacketType.Ack ⟨0⟩, ⟨[1, 2], 1⟩, 4⟩)
      ∈ [Output.log, Output.event (DroneEvent.PacketDropped
          ⟨PacketType.Ack ⟨0⟩, ⟨[1, 2], 1⟩, 4⟩)] := by
  constructor
  · rfl
  · decide

/-- Claim C8 (amended): the run returns only once the packet input
reports that no sender remains (every terminating trace contains the
closure event); the draining loop terminates exactly at that closure;
and a `Crash` command moves the loop into the draining phase in the
`Crashing` state. -/
theorem run_termination_characterization :
    (∀ fuel (st : RustDrone) events st' outs',
        run fuel st events = RunResult.terminated st' outs' →
        LoopEvent.pktClosed ∈ events)
    ∧ (∀ fuel (st : RustDrone) (outs : List Output) rest,
        run_crashing fuel st outs (LoopEvent.pktClosed :: rest) =
          RunResult.terminated st (outs ++ [Output.log]))
    ∧ (∀ fuel (st : RustDrone) (outs : List Output) rest,
        run_main fuel st outs (LoopEvent.cmdE DroneCommand.Crash :: rest) =
          run_crashing fuel { st with state := DroneState.Crashing }
            (outs ++ [Output.log]) rest) := by
  refine ⟨?_, ?_, ?_⟩
  · intro fuel st events st' outs' h
    exact run_main_terminated_mem fuel events _ [] st' outs' h
  · intro fuel st outs rest
    rfl
  · intro fuel st outs rest
    simp [run_main, handle_command]

/-- Counterexample to C8 as frozen: a run whose packet input closes
while the node is still Running terminates without any `Crash`
command. -/
theorem run_terminates_without_crash :
    run 5 ⟨2, 0, [], [], DroneState.Created⟩ [LoopEvent.pktClosed] =
      RunResult.terminated ⟨2, 0, [], [], DroneState.Running⟩ [Output.log]
    ∧ ∀ e ∈ [LoopEvent.pktClosed], e ≠ LoopEvent.cmdE DroneCommand.Crash := by
  constructor
  · rfl
  · intro e he
    simp only [List.mem_singleton] at he
    rw [he]
    intro hc
    exact LoopEvent.noConfusion hc

/-- Claim C1, evaluated at the failing input: a Fragment received while
Crashing first triggers the `ErrorInRouting(self_id)` Nack (sent to hop
`1`), and then — because the Crashing match arm lacks an early return —
control falls through to normal handling and the same Fragment is also
forwarded to hop `3`; the claim (and the spec) require the Nack instead
of the routing. -/
theorem crashing_fragment_nacked_and_still_routed :
    handle_packet 10 envOk
        ⟨2, 0, [1, 3], [], DroneState.Crashing⟩
        ⟨PacketType.MsgFragment ⟨7, 1, 0, []⟩, ⟨[1, 2, 3], 1⟩, 9⟩
      = some (⟨2, 0, [1, 3], [], DroneState.Crashing⟩,
        [Output.log, Output.log,
          Output.sent 1
            ⟨PacketType.Nack ⟨7, NackType.ErrorInRouting 2⟩, ⟨[2, 1], 1⟩, 9⟩,
          Output.event (DroneEvent.PacketSent
            ⟨PacketType.Nack ⟨7, NackType.ErrorInRouting 2⟩, ⟨[2, 1], 1⟩, 9⟩),
          Output.log, Output.log,
          Output.sent 3
            ⟨PacketType.MsgFragment ⟨7, 1, 0, []⟩, ⟨[1, 2, 3], 2⟩, 9⟩,
          Output.event (DroneEvent.PacketSent
            ⟨PacketType.MsgFragment ⟨7, 1, 0, []⟩, ⟨[1, 2, 3], 2⟩, 9⟩)])
    ∧ Output.sent 3 ⟨PacketType.MsgFragment ⟨7, 1, 0, []⟩, ⟨[1, 2, 3], 2⟩, 9⟩
      ∈ [Output.log, Output.log,
          Output.sent 1
            ⟨PacketType.Nack ⟨7, NackType.ErrorInRouting 2⟩, ⟨[2, 1], 1⟩, 9⟩,
          Output.event (DroneEvent.PacketSent
            ⟨PacketType.Nack ⟨7, NackType.ErrorInRouting 2⟩, ⟨[2, 1], 1⟩, 9⟩),
          Output.log, Output.log,
          Output.sent 3
            ⟨PacketType.MsgFragment ⟨7, 1, 0, []⟩, ⟨[1, 2, 3], 2⟩, 9⟩,
          Output.event (DroneEvent.PacketSent
            ⟨PacketType.MsgFragment ⟨7, 1, 0, []⟩, ⟨[1, 2, 3], 2⟩, 9⟩)] := by
  exact ⟨rfl, by decide⟩

end WGL
